import Mathlib

set_option maxRecDepth 20000

/-!
Shallow embedding of the aqua-watch client (src/app/(tabs)/index.tsx and
src/app/index.tsx): the per-cycle fetch logic, the chart-series composition,
and the React state updates driven by the fetch-on-effect pattern.
-/

/-- Raw body of `/api/well-data`: `{dates: string[], levels: number[]}`. -/
structure WellData where
  dates : List String
  levels : List Int
deriving DecidableEq, Repr

/-- Raw body of `/api/predict`: `{predicted_levels: number[]}`. -/
structure PredictData where
  predicted_levels : List Int
deriving DecidableEq, Repr

/-- Raw body of `/api/analysis`: `{condition: string, steps: string[]}`. -/
structure AnalysisData where
  condition : String
  steps : List String
deriving DecidableEq, Repr

/-- The `chartData` React state: `{labels: string[], datasets: {data: (number|null)[]}[]}`.
Chart values are `Option Int`: `none` models JS `null`. -/
structure ChartData where
  labels : List String
  datasets : List (List (Option Int))
deriving DecidableEq, Repr

/-- JS `arr.filter((_, i) => i % 60 === 0)`: keep the elements whose index is a
multiple of 60 (the label stride used at line 150 of src/app/(tabs)/index.tsx and
line 40 of src/app/index.tsx). -/
def filterEveryStride60 (l : List String) : List String :=
  (l.enum.filter (fun ie => ie.1 % 60 == 0)).map Prod.snd

/-- The chart composition shared by both screens (lines 145-155 of
src/app/(tabs)/index.tsx, lines 35-45 of src/app/index.tsx):
`combinedLabels = [...wellData.dates]`, `historicalDataset = wellData.levels`,
`forecastDataset = Array(wellData.levels.length).fill(null).concat(predictData.predicted_levels)`,
then `labels = combinedLabels.filter((_, i) => i % 60 === 0)` and
`datasets = [{data: historicalDataset}, {data: forecastDataset}]`. -/
def composeChart (wellData : WellData) (predictData : PredictData) : ChartData :=
  let combinedLabels := wellData.dates
  let historicalDataset := wellData.levels.map Option.some
  let forecastDataset :=
    List.replicate wellData.levels.length (none : Option Int)
      ++ predictData.predicted_levels.map Option.some
  { labels := filterEveryStride60 combinedLabels
    datasets := [historicalDataset, forecastDataset] }

/-- An HTTP response that arrived: its status code and its parsed body
(`none` models a body that fails to parse as the expected JSON shape). -/
structure Response (α : Type) where
  status : Nat
  body : Option α
deriving DecidableEq, Repr

/-- `fetch`'s `Response.ok`: the status is in the 2xx range. -/
def Response.ok {α : Type} (r : Response α) : Bool :=
  200 ≤ r.status && r.status < 300

/-- The keys of the static `CITY_INFO` registry in src/app/(tabs)/index.tsx. -/
inductive CityKey where
  | bhubaneswar_odisha
  | jaipur_rajasthan
  | nagpur_maharashtra
deriving DecidableEq, Repr

/-- The network environment one `fetchData` cycle runs against: the outcome of
the connectivity probe and of the three data requests. `none` models a fetch
whose promise rejected (network error, or the 10 s abort for the probe). -/
structure CycleEnv where
  probe : Option (Response Unit)
  well : Option (Response WellData)
  predict : Option (Response PredictData)
  analysisResp : Option (Response AnalysisData)

/-- The three data endpoints a cycle may request. -/
inductive Endpoint where
  | wellData
  | predict
  | analysisEndpoint
deriving DecidableEq, Repr

/-- `testBackendConnection` (lines 50-78 of src/app/(tabs)/index.tsx): a GET to
the health endpoint under a 10 s abort; returns `response.ok`, and `false` when
the fetch throws or is aborted. -/
def testBackendConnection (probe : Option (Response Unit)) : Bool :=
  match probe with
  | none => false
  | some r => r.ok

/-- What one cycle's `try` block produces before the setState calls run. -/
inductive FetchOutcome where
  | success (chart : ChartData) (analysisData : AnalysisData)
  | failure (message : String)
deriving DecidableEq, Repr

/-- Whether an outcome took the `catch` path. -/
def FetchOutcome.isFailure : FetchOutcome → Bool
  | .failure _ => true
  | .success _ _ => false

namespace HomeScreen

/-- `fetchData` of HomeScreen (lines 96-183 of src/app/(tabs)/index.tsx), as a
function of the cycle's network environment. Returns the outcome together with
the list of data endpoints the cycle actually requested. The code runs the
probe first and throws if it fails; then requests well-data, predict and
analysis sequentially, throwing on the first `!response.ok`; then parses the
three bodies in the same order. -/
def fetchData (env : CycleEnv) : FetchOutcome × List Endpoint :=
  if testBackendConnection env.probe = false then
    (.failure "Cannot connect to backend server", [])
  else
    match env.well with
    | none => (.failure "well-data fetch rejected", [.wellData])
    | some wellResponse =>
      if wellResponse.ok = false then
        (.failure ("Well data request failed with status: " ++ toString wellResponse.status),
          [.wellData])
      else
        match env.predict with
        | none => (.failure "predict fetch rejected", [.wellData, .predict])
        | some predictResponse =>
          if predictResponse.ok = false then
            (.failure ("Predict request failed with status: " ++ toString predictResponse.status),
              [.wellData, .predict])
          else
            match env.analysisResp with
            | none =>
              (.failure "analysis fetch rejected", [.wellData, .predict, .analysisEndpoint])
            | some analysisResponse =>
              if analysisResponse.ok = false then
                (.failure ("Analysis request failed with status: "
                    ++ toString analysisResponse.status),
                  [.wellData, .predict, .analysisEndpoint])
              else
                match wellResponse.body with
                | none =>
                  (.failure "well-data body not parseable",
                    [.wellData, .predict, .analysisEndpoint])
                | some wellData =>
                  match predictResponse.body with
                  | none =>
                    (.failure "predict body not parseable",
                      [.wellData, .predict, .analysisEndpoint])
                  | some predictData =>
                    match analysisResponse.body with
                    | none =>
                      (.failure "analysis body not parseable",
                        [.wellData, .predict, .analysisEndpoint])
                    | some analysisData =>
                      (.success (composeChart wellData predictData) analysisData,
                        [.wellData, .predict, .analysisEndpoint])

/-- The React state of HomeScreen: the `loading`, `chartData`, `analysis` and
`selectedCity` `useState` hooks (lines 81-84 of src/app/(tabs)/index.tsx). -/
structure AppState where
  loading : Bool
  chartData : ChartData
  analysis : AnalysisData
  selectedCity : CityKey
deriving DecidableEq, Repr

/-- The initial hook values on mount. -/
def initialAppState : AppState :=
  { loading := true
    chartData := { labels := [], datasets := [[]] }
    analysis := { condition := "", steps := [] }
    selectedCity := .bhubaneswar_odisha }

/-- The analysis record the `catch` block installs (lines 166-174). -/
def connectionErrorAnalysis (errorMessage : String) : AnalysisData :=
  { condition := "Connection Error"
    steps :=
      [ "Error: " ++ errorMessage
      , "Check if the Flask backend is running on port 5000"
      , "Verify your device is connected to the same WiFi network"
      , "Backend URL: https://aqua-watch.onrender.com" ] }

/-- The setState calls a finishing cycle performs: on success
`setChartData`/`setAnalysis` with the composed data, on failure only
`setAnalysis` with the error record (the `catch` block never touches
`chartData`), and `setLoading(false)` in `finally` either way. -/
def applyCompletion (s : AppState) (out : FetchOutcome) : AppState :=
  match out with
  | .success chart analysisData =>
    { s with chartData := chart, analysis := analysisData, loading := false }
  | .failure msg =>
    { s with analysis := connectionErrorAnalysis msg, loading := false }

/-- Externally observable events: a selection from the city modal
(`setSelectedCity(key)` plus `setLoading(true)`, lines 228-232, which re-runs
the effect and starts a new cycle), and the completion of a cycle that was
started while `startedFor` was the selected city. The completion handler in
the code never compares `startedFor` with the current selection: its setState
calls run unconditionally. -/
inductive Event where
  | select (k : CityKey)
  | complete (startedFor : CityKey) (out : FetchOutcome)

/-- One event's effect on the React state, as the code implements it. -/
def step (s : AppState) (e : Event) : AppState :=
  match e with
  | .select k => { s with selectedCity := k, loading := true }
  | .complete _ out => applyCompletion s out

/-- Run a sequence of events from a state. -/
def run (s : AppState) (es : List Event) : AppState :=
  es.foldl step s

end HomeScreen

namespace IndexScreen

/-- The network environment of an IndexScreen cycle: no connectivity probe. -/
structure CycleEnv where
  well : Option (Response WellData)
  predict : Option (Response PredictData)
  analysisResp : Option (Response AnalysisData)

/-- `fetchData` of IndexScreen (lines 22-56 of src/app/index.tsx):
`Promise.all` of the three fetches (any rejection throws), then `.json()` on
each body with **no** `response.ok` checks, then the same chart composition. -/
def fetchData (env : CycleEnv) : FetchOutcome :=
  match env.well, env.predict, env.analysisResp with
  | some wellResponse, some predictResponse, some analysisResponse =>
    match wellResponse.body, predictResponse.body, analysisResponse.body with
    | some wellData, some predictData, some analysisData =>
      .success (composeChart wellData predictData) analysisData
    | _, _, _ => .failure "json body not parseable"
  | _, _, _ => .failure "Could not connect to the server."

end IndexScreen

/-- `sub` is an initial segment of `hay` (character lists). -/
def listStartsWith : List Char → List Char → Bool
  | [], _ => true
  | _ :: _, [] => false
  | c :: cs, h :: hs => c == h && listStartsWith cs hs

/-- `hay` has `sub` as a contiguous segment (character lists). -/
def listContainsSub (hay sub : List Char) : Bool :=
  if listStartsWith sub hay then true
  else
    match hay with
    | [] => false
    | _ :: hs => listContainsSub hs sub

/-- JS `s.includes(sub)`: substring containment on the underlying characters. -/
def jsIncludes (s sub : String) : Bool :=
  listContainsSub s.data sub.data

/-- The severity color of the condition text (line 280 of
src/app/(tabs)/index.tsx and line 98 of src/app/index.tsx):
`condition.includes('Critical') ? 'red' : condition.includes('Semi-Critical') ? 'orange' : 'green'`. -/
def conditionColor (condition : String) : String :=
  if jsIncludes condition "Critical" then "red"
  else if jsIncludes condition "Semi-Critical" then "orange"
  else "green"

/-- A small well-data record, used as a concrete cycle result. -/
def sampleWellA : WellData := { dates := ["2020-01-01"], levels := [12] }

/-- A small predict record matching `sampleWellA`. -/
def samplePredictA : PredictData := { predicted_levels := [13] }

/-- A small analysis record. -/
def sampleAnalysisA : AnalysisData := { condition := "Safe", steps := ["Maintain current usage"] }

/-- The chart composed from the first sample cycle. -/
def sampleChartA : ChartData := composeChart sampleWellA samplePredictA

/-- A second well-data record, distinct from the first. -/
def sampleWellB : WellData := { dates := ["2021-01-01"], levels := [7] }

/-- A second predict record. -/
def samplePredictB : PredictData := { predicted_levels := [8] }

/-- A second analysis record. -/
def sampleAnalysisB : AnalysisData := { condition := "Critical", steps := ["Stop pumping"] }

/-- The chart composed from the second sample cycle. -/
def sampleChartB : ChartData := composeChart sampleWellB samplePredictB

/-- An analysis record with the Semi-Critical classification. -/
def sampleAnalysisSemi : AnalysisData :=
  { condition := "Semi-Critical", steps := ["Reduce pumping"] }

/-- A well-data record with 180 daily dates and 180 levels. -/
def sampleWell180 : WellData :=
  { dates := List.replicate 180 "2020-01-01", levels := (List.range 180).map Int.ofNat }

/-- A predict record with 30 predicted levels. -/
def samplePredict30 : PredictData :=
  { predicted_levels := (List.range 30).map Int.ofNat }

/-- A HomeScreen cycle environment whose well-data response is a 404. -/
def envWell404 : CycleEnv :=
  { probe := some { status := 200, body := some () }
    well := some { status := 404, body := some sampleWellA }
    predict := none
    analysisResp := none }

/-- A fully successful HomeScreen cycle environment whose analysis condition is
"Semi-Critical". -/
def envSemiCritical : CycleEnv :=
  { probe := some { status := 200, body := some () }
    well := some { status := 200, body := some sampleWellA }
    predict := some { status := 200, body := some samplePredictA }
    analysisResp := some { status := 200, body := some sampleAnalysisSemi } }

/-- Counting the multiples of 60 below `L` gives the ceiling of `L / 60`. -/
lemma countP_range_stride (L : Nat) :
    ((List.range L).countP (fun i => i % 60 == 0)) = (L + 59) / 60 := by
  induction L with
  | zero => rfl
  | succ n ih =>
    rw [List.range_succ, List.countP_append, ih]
    by_cases h : n % 60 = 0
    · simp [List.countP_cons, h]
      omega
    · simp [List.countP_cons, h]
      omega

/-- The stride filter keeps exactly the positions that are multiples of 60, so its
length is the ceiling of `l.length / 60`. -/
lemma filterEveryStride60_length (l : List String) :
    (filterEveryStride60 l).length = (l.length + 59) / 60 := by
  unfold filterEveryStride60
  rw [List.length_map, ← List.countP_eq_length_filter]
  have hmap : (l.enum.map Prod.fst).countP (fun i => i % 60 == 0)
      = l.enum.countP (fun ie => ie.1 % 60 == 0) := by
    rw [List.countP_map]
    rfl
  rw [← countP_range_stride l.length, ← List.enum_map_fst l, hmap]

lemma listStartsWith_iff (sub hay : List Char) :
    listStartsWith sub hay = true ↔ ∃ r, hay = sub ++ r := by
  induction sub generalizing hay with
  | nil => simp [listStartsWith]
  | cons c cs ih =>
    cases hay with
    | nil => simp [listStartsWith]
    | cons h hs =>
      simp only [listStartsWith, Bool.and_eq_true, beq_iff_eq, ih, List.cons_append,
        List.cons.injEq]
      constructor
      · rintro ⟨hc, r, hr⟩
        exact ⟨r, hc.symm, hr⟩
      · rintro ⟨r, hc, hr⟩
        exact ⟨hc.symm, r, hr⟩

lemma listContainsSub_nil (sub : List Char) :
    listContainsSub [] sub = listStartsWith sub [] := by
  rw [listContainsSub]
  cases h : listStartsWith sub [] <;> simp [h]

lemma listContainsSub_cons (c : Char) (tl sub : List Char) :
    listContainsSub (c :: tl) sub
      = (listStartsWith sub (c :: tl) || listContainsSub tl sub) := by
  rw [listContainsSub]
  cases h : listStartsWith sub (c :: tl) <;> simp [h]

lemma listContainsSub_iff (hay sub : List Char) :
    listContainsSub hay sub = true ↔ ∃ l r, hay = l ++ sub ++ r := by
  induction hay with
  | nil =>
    rw [listContainsSub_nil, listStartsWith_iff]
    constructor
    · rintro ⟨r, hr⟩
      exact ⟨[], r, by simpa using hr⟩
    · rintro ⟨l, r, hlr⟩
      cases l with
      | nil => exact ⟨r, by simpa using hlr⟩
      | cons x xs => simp at hlr
  | cons c tl ih =>
    rw [listContainsSub_cons, Bool.or_eq_true, listStartsWith_iff, ih]
    constructor
    · rintro (⟨r, hr⟩ | ⟨l, r, hlr⟩)
      · exact ⟨[], r, by simpa using hr⟩
      · exact ⟨c :: l, r, by simp [hlr]⟩
    · rintro ⟨l, r, hlr⟩
      cases l with
      | nil => exact Or.inl ⟨r, by simpa using hlr⟩
      | cons x xs =>
        simp only [List.cons_append, List.cons.injEq] at hlr
        exact Or.inr ⟨xs, r, hlr.2⟩

/-- Any string containing `"Semi-Critical"` also contains `"Critical"`. -/
lemma jsIncludes_critical_of_semi (s : String) (h : jsIncludes s "Semi-Critical" = true) :
    jsIncludes s "Critical" = true := by
  unfold jsIncludes at h ⊢
  rw [listContainsSub_iff] at h ⊢
  obtain ⟨l, r, hlr⟩ := h
  have hsplit : ("Semi-Critical").data = ("Semi-").data ++ ("Critical").data := by decide
  refine ⟨l ++ ("Semi-").data, r, ?_⟩
  rw [hlr, hsplit]
  simp [List.append_assoc]

/-- Taking the replicated length from a replicate-padded list returns the padding. -/
lemma take_replicate_append {α : Type} (n : Nat) (a : α) (l : List α) :
    (List.replicate n a ++ l).take n = List.replicate n a := by
  induction n with
  | zero => simp
  | succ k ih => simp [List.replicate_succ, ih]

/-- Dropping the replicated length from a replicate-padded list returns the tail. -/
lemma drop_replicate_append {α : Type} (n : Nat) (a : α) (l : List α) :
    (List.replicate n a ++ l).drop n = l := by
  induction n with
  | zero => simp
  | succ k ih => simp [List.replicate_succ, ih]

/-- C2 as stated is false on the code: with one historical level and one
predicted level, the historical dataset has length 1 while the forecast dataset
has length 2, so the two composed datasets do not have the same length. -/
theorem C2_counterexample :
    (composeChart { dates := ["2020-01-01"], levels := [5] } { predicted_levels := [7] }).datasets
        = [[some 5], [none, some 7]]
      ∧ ([none, some (7 : Int)].length ≠ [some (5 : Int)].length) :=
  ⟨rfl, by decide⟩

/-- C2 (amended): in the composed chart, the historical dataset keeps length h
(the number of historical levels) while the forecast dataset has length h + f
(historical plus predicted); the first h entries of the forecast dataset are
null. The two datasets are equal in length only when there are no predictions. -/
theorem C2_forecast_dataset_shape (wellData : WellData) (predictData : PredictData) :
    ∃ historicalDataset forecastDataset,
      (composeChart wellData predictData).datasets = [historicalDataset, forecastDataset]
        ∧ historicalDataset.length = wellData.levels.length
        ∧ forecastDataset.length
            = wellData.levels.length + predictData.predicted_levels.length
        ∧ forecastDataset.take wellData.levels.length
            = List.replicate wellData.levels.length (none : Option Int) := by
  refine ⟨_, _, rfl, ?_, ?_, ?_⟩
  · simp
  · simp
  · exact take_replicate_append _ _ _

/-- C3 as stated is false on the code: for 180 historical dates/levels and 30
predicted levels the dataset lengths are 180 and 210 (not 210 and 210), and the
display labels number 3 (source indices 0, 60, 120), not 4, because the label
filter runs over the 180 historical dates only. -/
theorem C3_counterexample :
    ((composeChart sampleWell180 samplePredict30).datasets.map List.length ≠ [210, 210])
      ∧ (composeChart sampleWell180 samplePredict30).labels.length ≠ 4 := by
  constructor
  · decide
  · decide

/-- C3 (amended): for any well-data record with 180 dates and 180 levels and any
predict record with 30 predicted levels, the composed chart has a historical
dataset of length 180 and a forecast dataset of length 210 that is null at
indices 0 through 179 and equals the predicted levels at indices 180 through
209, and has 3 display labels (source indices 0, 60, 120). -/
theorem C3_end_to_end (wellData : WellData) (predictData : PredictData)
    (hd : wellData.dates.length = 180) (hl : wellData.levels.length = 180)
    (hp : predictData.predicted_levels.length = 30) :
    ∃ historicalDataset forecastDataset,
      (composeChart wellData predictData).datasets = [historicalDataset, forecastDataset]
        ∧ historicalDataset.length = 180
        ∧ forecastDataset.length = 210
        ∧ forecastDataset.take 180 = List.replicate 180 (none : Option Int)
        ∧ forecastDataset.drop 180 = predictData.predicted_levels.map Option.some
        ∧ (composeChart wellData predictData).labels.length = 3 := by
  refine ⟨_, _, rfl, ?_, ?_, ?_, ?_, ?_⟩
  · simp [hl]
  · simp [hl, hp]
  · rw [hl] at *
    exact take_replicate_append _ _ _
  · rw [hl] at *
    exact drop_replicate_append _ _ _
  · show (filterEveryStride60 wellData.dates).length = 3
    rw [filterEveryStride60_length, hd]

/-- Closed instance of the amended C3 at a concrete 180/180/30 input. -/
theorem C3_end_to_end_witness :
    (sampleWell180.dates.length = 180 ∧ sampleWell180.levels.length = 180
        ∧ samplePredict30.predicted_levels.length = 30)
      ∧ ∃ historicalDataset forecastDataset,
          (composeChart sampleWell180 samplePredict30).datasets
              = [historicalDataset, forecastDataset]
            ∧ historicalDataset.length = 180
            ∧ forecastDataset.length = 210
            ∧ forecastDataset.take 180 = List.replicate 180 (none : Option Int)
            ∧ forecastDataset.drop 180 = samplePredict30.predicted_levels.map Option.some
            ∧ (composeChart sampleWell180 samplePredict30).labels.length = 3 :=
  ⟨⟨by decide, by decide, by decide⟩,
    C3_end_to_end sampleWell180 samplePredict30 (by decide) (by decide) (by decide)⟩

/-- C6: for every combined-labels sequence of positive length L, the stride-60
display labels have length `(L + 59) / 60` (the ceiling of L / 60 in ℕ), and
exactly 1 when L is at most 60. -/
theorem C6_displayLabels_length (l : List String) (hpos : 0 < l.length) :
    (filterEveryStride60 l).length = (l.length + 59) / 60
      ∧ (l.length ≤ 60 → (filterEveryStride60 l).length = 1) := by
  refine ⟨filterEveryStride60_length l, fun hle => ?_⟩
  rw [filterEveryStride60_length]
  omega

/-- Closed instance of C6 at a 60-element label list. -/
theorem C6_displayLabels_length_witness :
    0 < (List.replicate 60 "2020-01-01").length
      ∧ ((filterEveryStride60 (List.replicate 60 "2020-01-01")).length
            = ((List.replicate 60 "2020-01-01").length + 59) / 60
        ∧ ((List.replicate 60 "2020-01-01").length ≤ 60
            → (filterEveryStride60 (List.replicate 60 "2020-01-01")).length = 1)) :=
  ⟨by decide, C6_displayLabels_length (List.replicate 60 "2020-01-01") (by decide)⟩

/-- C9: an empty historical date sequence yields an empty display-labels
sequence (zero labels, not one). -/
theorem C9_empty_series_zero_labels :
    filterEveryStride60 [] = [] := rfl

/-- C10: every condition string containing "Semi-Critical" also contains
"Critical", so the color mapping picks red and the orange branch never fires. -/
theorem C10_semi_critical_is_red (condition : String)
    (h : jsIncludes condition "Semi-Critical" = true) :
    conditionColor condition = "red" := by
  unfold conditionColor
  rw [jsIncludes_critical_of_semi condition h]
  rfl

/-- Closed instance of C10 at the condition "Semi-Critical" itself. -/
theorem C10_semi_critical_is_red_witness :
    jsIncludes "Semi-Critical" "Semi-Critical" = true
      ∧ conditionColor "Semi-Critical" = "red" :=
  ⟨by decide, C10_semi_critical_is_red "Semi-Critical" (by decide)⟩

/-- C1 fails on the code: the completion handler carries no staleness check, so
after the selection moves from Bhubaneswar to Jaipur and Jaipur's cycle has
already committed its result, the stale Bhubaneswar completion still fires
`setChartData`/`setAnalysis` and the final observed state shows Bhubaneswar's
chart and analysis under the Jaipur selection. -/
theorem C1_stale_completion_overwrites :
    HomeScreen.run HomeScreen.initialAppState
        [ .select .jaipur_rajasthan
        , .complete .jaipur_rajasthan (.success sampleChartB sampleAnalysisB)
        , .complete .bhubaneswar_odisha (.success sampleChartA sampleAnalysisA) ]
      = { loading := false
          chartData := sampleChartA
          analysis := sampleAnalysisA
          selectedCity := .jaipur_rajasthan }
      ∧ sampleChartA ≠ sampleChartB := by
  constructor
  · rfl
  · decide

/-- C5 fails on the code: after a successful Bhubaneswar cycle, a failing Jaipur
cycle only replaces `analysis` with the Connection Error record; `chartData`
still holds the previous cycle's chart, so the failed state mixes the prior
ChartSeries with the new error information. -/
theorem C5_failed_cycle_keeps_stale_chart :
    HomeScreen.run HomeScreen.initialAppState
        [ .complete .bhubaneswar_odisha (.success sampleChartA sampleAnalysisA)
        , .select .jaipur_rajasthan
        , .complete .jaipur_rajasthan (.failure "Predict request failed with status: 500") ]
      = { loading := false
          chartData := sampleChartA
          analysis := HomeScreen.connectionErrorAnalysis "Predict request failed with status: 500"
          selectedCity := .jaipur_rajasthan }
      ∧ sampleChartA ≠ HomeScreen.initialAppState.chartData := by
  constructor
  · rfl
  · decide

/-- C4 as stated is false on the code: IndexScreen never checks response
statuses, so three non-2xx responses whose bodies still parse produce a fully
populated success, not a failure. -/
theorem C4_counterexample :
    (Response.mk 500 (some sampleWellA) : Response WellData).ok = false
      ∧ IndexScreen.fetchData
          { well := some { status := 500, body := some sampleWellA }
            predict := some { status := 500, body := some samplePredictA }
            analysisResp := some { status := 500, body := some sampleAnalysisA } }
        = .success (composeChart sampleWellA samplePredictA) sampleAnalysisA :=
  ⟨rfl, rfl⟩

/-- C4 (amended, scoped to HomeScreen): whenever any of the three data
responses of a HomeScreen cycle has a non-2xx status, the cycle's outcome is a
failure, never a success populated from a subset of the endpoints. -/
theorem C4_non2xx_yields_failure (env : CycleEnv)
    (h : (∃ r, env.well = some r ∧ r.ok = false)
        ∨ (∃ r, env.predict = some r ∧ r.ok = false)
        ∨ (∃ r, env.analysisResp = some r ∧ r.ok = false)) :
    (HomeScreen.fetchData env).1.isFailure = true := by
  unfold HomeScreen.fetchData
  cases hcon : testBackendConnection env.probe with
  | false => simp [hcon, FetchOutcome.isFailure]
  | true =>
    rcases h with ⟨r, hr, hok⟩ | ⟨r, hr, hok⟩ | ⟨r, hr, hok⟩
    · simp [hcon, hr, hok, FetchOutcome.isFailure]
    · cases hw : env.well with
      | none => simp [hcon, hw, FetchOutcome.isFailure]
      | some wellResponse =>
        cases hwok : wellResponse.ok with
        | false => simp [hcon, hw, hwok, FetchOutcome.isFailure]
        | true => simp [hcon, hw, hwok, hr, hok, FetchOutcome.isFailure]
    · cases hw : env.well with
      | none => simp [hcon, hw, FetchOutcome.isFailure]
      | some wellResponse =>
        cases hwok : wellResponse.ok with
        | false => simp [hcon, hw, hwok, FetchOutcome.isFailure]
        | true =>
          cases hp : env.predict with
          | none => simp [hcon, hw, hwok, hp, FetchOutcome.isFailure]
          | some predictResponse =>
            cases hpok : predictResponse.ok with
            | false => simp [hcon, hw, hwok, hp, hpok, FetchOutcome.isFailure]
            | true => simp [hcon, hw, hwok, hp, hpok, hr, hok, FetchOutcome.isFailure]

/-- Closed instance of the amended C4: the 404 well-data cycle fails. -/
theorem C4_non2xx_yields_failure_witness :
    (∃ r, envWell404.well = some r ∧ r.ok = false)
      ∧ (HomeScreen.fetchData envWell404).1.isFailure = true :=
  ⟨⟨{ status := 404, body := some sampleWellA }, rfl, rfl⟩,
    C4_non2xx_yields_failure envWell404
      (Or.inl ⟨{ status := 404, body := some sampleWellA }, rfl, rfl⟩)⟩

/-- C7: when the connectivity probe fails or times out, the cycle issues none of
the three data requests and ends in a failure outcome. -/
theorem C7_probe_short_circuit (env : CycleEnv)
    (h : testBackendConnection env.probe = false) :
    (HomeScreen.fetchData env).2 = []
      ∧ (HomeScreen.fetchData env).1 = .failure "Cannot connect to backend server" := by
  unfold HomeScreen.fetchData
  rw [h]
  exact ⟨rfl, rfl⟩

/-- Closed instance of C7: an aborted probe fetch short-circuits the cycle. -/
theorem C7_probe_short_circuit_witness :
    testBackendConnection
        ({ probe := none, well := none, predict := none, analysisResp := none } : CycleEnv).probe
        = false
      ∧ ((HomeScreen.fetchData
            { probe := none, well := none, predict := none, analysisResp := none }).2 = []
        ∧ (HomeScreen.fetchData
            { probe := none, well := none, predict := none, analysisResp := none }).1
          = .failure "Cannot connect to backend server") :=
  ⟨rfl, C7_probe_short_circuit
    { probe := none, well := none, predict := none, analysisResp := none } rfl⟩

/-- C8: a fully successful cycle produces the composed chart together with the
analysis record exactly as received, and the state committed by the completion
exposes that record unmodified — in particular its condition string. -/
theorem C8_condition_passthrough (env : CycleEnv) (s : HomeScreen.AppState) (k : CityKey)
    (wellResponse : Response WellData) (predictResponse : Response PredictData)
    (analysisResponse : Response AnalysisData)
    (wellData : WellData) (predictData : PredictData) (analysisData : AnalysisData)
    (hcon : testBackendConnection env.probe = true)
    (hw : env.well = some wellResponse) (hwok : wellResponse.ok = true)
    (hwb : wellResponse.body = some wellData)
    (hp : env.predict = some predictResponse) (hpok : predictResponse.ok = true)
    (hpb : predictResponse.body = some predictData)
    (ha : env.analysisResp = some analysisResponse) (haok : analysisResponse.ok = true)
    (hab : analysisResponse.body = some analysisData) :
    (HomeScreen.fetchData env).1 = .success (composeChart wellData predictData) analysisData
      ∧ (HomeScreen.step s (.complete k (HomeScreen.fetchData env).1)).analysis
        = analysisData := by
  have hmain :
      (HomeScreen.fetchData env).1
        = .success (composeChart wellData predictData) analysisData := by
    unfold HomeScreen.fetchData
    simp [hcon, hw, hwok, hwb, hp, hpok, hpb, ha, haok, hab]
  refine ⟨hmain, ?_⟩
  rw [hmain]
  rfl

/-- Closed instance of C8: the "Semi-Critical" condition is exposed verbatim. -/
theorem C8_condition_passthrough_witness :
    (testBackendConnection envSemiCritical.probe = true
        ∧ envSemiCritical.analysisResp
            = some { status := 200, body := some sampleAnalysisSemi })
      ∧ ((HomeScreen.fetchData envSemiCritical).1
            = .success (composeChart sampleWellA samplePredictA) sampleAnalysisSemi
        ∧ (HomeScreen.step HomeScreen.initialAppState
              (.complete .bhubaneswar_odisha (HomeScreen.fetchData envSemiCritical).1)).analysis
          = sampleAnalysisSemi) :=
  ⟨⟨rfl, rfl⟩,
    C8_condition_passthrough envSemiCritical HomeScreen.initialAppState .bhubaneswar_odisha
      { status := 200, body := some sampleWellA }
      { status := 200, body := some samplePredictA }
      { status := 200, body := some sampleAnalysisSemi }
      sampleWellA samplePredictA sampleAnalysisSemi
      rfl rfl rfl rfl rfl rfl rfl rfl rfl rfl⟩
